import Mathlib

/-!
A shallow embedding of the sentiment-classification core of `src/utils.py`
(`analyze_sentiments_with_vader` and its helper functions), together with
theorems settling the specification claims about it.

Modelling conventions:
- Python floats are modelled as exact rationals (`ℚ`); the decimal literals of
  the source (`0.3`, `0.2`, `0.8`, `0.1`, the emoji weights) are carried over
  verbatim as rational literals.
- The VADER lexicon scorer (the compound field of `analyzer.polarity_scores`) is an
  external collaborator; the classifier is parameterised by an arbitrary
  function `analyzer : String → ℚ` standing for `text ↦ compound score`.
- Python string operations used by the core (`str.strip`, `str.lower`,
  the `str` coercion of a cell value, the word tokenizer of `re.findall`)
  are embedded as structurally recursive functions on the character list.
- The dataframe is modelled as a `List Cell` of review-cell values (a cell is
  either a string or a non-string/NaN entry, which `str(...)` renders "nan");
  the row index `i` of `df.iterrows()` is the position in the list.
- The progress bar is modelled by recording the sequence of fractional values
  `(i + 1) / total_reviews` passed to `progress_bar.progress` during the loop.
-/

/-- Python `str.strip` whitespace test (`Char.isWhitespace` on each end). -/
def py_isspace (c : Char) : Bool := c.isWhitespace

/-- Python `str.strip()`: drop leading and trailing whitespace. -/
def py_strip (s : String) : String :=
  String.mk (((s.data.dropWhile py_isspace).reverse.dropWhile py_isspace).reverse)

/-- Python `str.lower()` (character-wise lowering). -/
def py_lower (s : String) : String := String.mk (s.data.map Char.toLower)

/-- A value of the `review` column: either a string or a non-string (e.g. NaN)
entry. -/
inductive Cell where
  | str : String → Cell
  | nan : Cell
deriving DecidableEq

/-- Python `str` applied to the review cell: a string cell is itself; a
missing/NaN entry renders as the three-letter string nan. -/
def py_str : Cell → String
  | Cell.str s => s
  | Cell.nan => "nan"

/-- The `EMOJI_SENTIMENT` dictionary of `src/utils.py` (lines 93–103), keys and
weights verbatim.  Note the heart key ❤️ is a two-codepoint string (heart +
variation selector), exactly as in the source. -/
def EMOJI_SENTIMENT : List (String × ℚ) := [
  ("😊", 0.8), ("😍", 0.9), ("😎", 0.7), ("😄", 0.85), ("😃", 0.85), ("😁", 0.8),
  ("😆", 0.8), ("😅", 0.7),
  ("😂", 0.8), ("🤣", 0.85), ("🥰", 0.9), ("❤️", 0.9), ("💖", 0.85), ("✨", 0.6),
  ("🌟", 0.7), ("💫", 0.65),
  ("🎉", 0.7), ("🏆", 0.6), ("👏", 0.6), ("👍", 0.7), ("💪", 0.6), ("🔥", 0.65),
  ("🌈", 0.7), ("🌸", 0.6),
  ("😭", -0.8), ("😢", -0.7), ("😔", -0.6), ("😞", -0.6), ("😕", -0.4), ("😟", -0.5),
  ("😣", -0.5),
  ("😖", -0.7), ("😫", -0.7), ("😩", -0.7), ("😡", -0.9), ("😠", -0.8), ("🤬", -0.95),
  ("🤯", -0.6),
  ("😳", -0.3), ("😱", -0.7), ("😨", -0.7), ("😰", -0.6), ("😥", -0.5), ("😓", -0.5)]

/-- The dictionary-membership test `char in EMOJI_SENTIMENT` followed by the
lookup `EMOJI_SENTIMENT[char]`: a single character matches a key iff that key
is exactly the one-character string. -/
def emojiLookup (c : Char) : Option ℚ :=
  (EMOJI_SENTIMENT.find? (fun p => p.1 == String.mk [c])).map (fun p => p.2)

/-- Function `get_emoji_sentiment` of `src/utils.py` (lines 105–113): scan the text
character by character, accumulate the weight and a match counter for each
character present in the table, and return `score / max(1, count)`. -/
def get_emoji_sentiment (text : String) : ℚ :=
  let r := text.data.foldl (fun acc c =>
    match emojiLookup c with
    | some w => (acc.1 + w, acc.2 + 1)
    | none => acc) ((0 : ℚ), (0 : ℕ))
  r.1 / ((max 1 r.2 : ℕ) : ℚ)

/-- The list of table weights of the characters of `text` that are present in
the emoji table, in text order (the weights the source loop accumulates). -/
def emojiWeights (text : String) : List ℚ := text.data.filterMap emojiLookup

/-- The `misspellings` pattern set of `src/utils.py` (lines 118–136).  Every
pattern has the shape `\b(alt|alt|...)\b` and is applied with `re.fullmatch`
to a single `\w+` token, so a pattern matches a word iff the word is literally
one of its alternatives; each inner list is the alternative list of one
pattern, duplicates kept verbatim. -/
def MISSPELLINGS : List (List String) := [
  ["plz", "pls", "pl0x"],
  ["thx", "thanx", "thnks", "thnkx", "thnx", "thnq", "thnku", "ty", "tysm", "tyvm"],
  ["u", "ur", "yr"],
  ["r", "are"],
  ["wont", "wont", "wont", "wont", "wont"],
  ["dont", "dont", "dont", "dont", "dont"],
  ["cant"],
  ["im", "i m"],
  ["ive", "i ve"],
  ["app", "appz", "ap", "apk"],
  ["awesome", "awsm", "awsum", "awsm", "awsum"],
  ["bad", "badd", "baddd", "badddd", "baddddd"],
  ["good", "gud", "gud", "gud", "gud"],
  ["great", "gr8", "grt", "gr8t", "gr8test", "grate", "greatful", "grat"],
  ["love", "luv", "lov", "lovv", "lovve", "lovvv", "lovvve", "lovvved", "lovvver",
   "lovvving", "lovvved", "lovvvving", "lovvved"],
  ["hate", "haet", "h8", "h8ed", "h8ing", "h8r", "h8rs", "h8s", "h8ter", "h8ters",
   "h8tr", "h8trs", "h8s"],
  ["worst", "wrst", "w0rst", "w0rse"]]

/-- A `\w` word character: alphanumeric or underscore. -/
def isWordChar (c : Char) : Bool := c.isAlphanum || c == '_'

/-- Tokenizer worker: split a character list into maximal runs of word
characters (the accumulator holds the current run, reversed). -/
def wordsAux : List Char → List Char → List String
  | [], cur => if cur.isEmpty then [] else [String.mk cur.reverse]
  | c :: rest, cur =>
    if isWordChar c then wordsAux rest (c :: cur)
    else if cur.isEmpty then wordsAux rest []
    else String.mk cur.reverse :: wordsAux rest []

/-- The word tokenizer `re.findall` with the whole-word pattern: the maximal
contiguous runs of alphanumeric/underscore characters of `text`. -/
def findall_words (text : String) : List String := wordsAux text.data []

/-- The per-word inner loop of `get_misspelling_score`: the `break` makes a
word contribute one count iff some pattern matches it, i.e. iff the word is an
alternative of some pattern. -/
def isMisspelled (word : String) : Bool :=
  MISSPELLINGS.any (fun alts => alts.contains word)

/-- Function `get_misspelling_score` of `src/utils.py` (lines 115–150): tokenize the
lower-cased text, return 0 if there are no words, otherwise the number of
words matching some misspelling pattern divided by the number of words. -/
def get_misspelling_score (text : String) : ℚ :=
  let words := findall_words (py_lower text)
  if words.isEmpty then 0
  else ((words.countP isMisspelled : ℕ) : ℚ) / ((words.length : ℕ) : ℚ)

/-- The threshold mapping of `src/utils.py` (lines 173–178): `>= 0.1` is
Positive, else `<= -0.1` is Negative, else Neutral. -/
def threshold_label (score : ℚ) : String :=
  if score ≥ 0.1 then "Positive"
  else if score ≤ -0.1 then "Negative"
  else "Neutral"

/-- The score adjustment of `src/utils.py` (lines 159–170): add 30% of the
emoji sentiment to the compound score, then multiply by 0.8 if the misspelling
score exceeds 0.2. -/
def adjusted_score (compound : ℚ) (text : String) : ℚ :=
  let adjusted := compound + get_emoji_sentiment text * 0.3
  if get_misspelling_score text > 0.2 then adjusted * 0.8 else adjusted

/-- The per-record classification of `src/utils.py` (lines 152–178):
`str(...)`-coerce the review cell, strip it; an empty result is Inconclusive,
otherwise threshold the adjusted score of the stripped text.  `analyzer` is
the VADER compound score, an external collaborator. -/
def classify_record (analyzer : String → ℚ) (cell : Cell) : String :=
  let review_text_stripped := py_strip (py_str cell)
  if review_text_stripped = "" then "Inconclusive"
  else threshold_label (adjusted_score (analyzer review_text_stripped) review_text_stripped)

/-- The fixed category list of the summary (line 191). -/
def categories : List String := ["Positive", "Negative", "Neutral", "Spam", "Inconclusive"]

/-- The count `sentiment_counts.get(category, 0)` (line 194): the number of records
labelled `cat`. -/
def label_count (sentiments : List String) (cat : String) : ℕ :=
  sentiments.countP (fun s => s == cat)

/-- The percentage `(count / total_sentiments) * 100 if total_sentiments > 0 else 0`
of line 195. -/
def label_percentage (sentiments : List String) (cat : String) : ℚ :=
  if 0 < sentiments.length then
    ((label_count sentiments cat : ℕ) : ℚ) / ((sentiments.length : ℕ) : ℚ) * 100
  else 0

/-- The summary value returned by `analyze_sentiments_with_vader`: either the
early-return message, or the rendered distribution (header plus, per category,
its count and percentage). -/
inductive SummaryOutput where
  | message : String → SummaryOutput
  | distribution : String → List (String × ℕ × ℚ) → SummaryOutput
deriving DecidableEq

/-- The observable outcome of one call of `analyze_sentiments_with_vader`:
the returned dataframe cells, the attached `sentiment` column, the summary,
and the sequence of fractions passed to the progress bar. -/
structure AnalyzeResult where
  out_df : List Cell
  sentiments : List String
  summary : SummaryOutput
  progress_calls : List ℚ
deriving DecidableEq

/-- Function `analyze_sentiments_with_vader` of `src/utils.py` (lines 77–200): an empty
dataframe is returned unchanged with the literal message; otherwise every row
is classified independently in order, the progress bar (when present) receives
`(i + 1) / total_reviews` after row `i`, and the summary reports count and
percentage for each of the five categories. -/
def analyze_sentiments_with_vader (analyzer : String → ℚ) (progress_bar : Bool)
    (df : List Cell) : AnalyzeResult :=
  if df.isEmpty then ⟨df, [], SummaryOutput.message "No reviews to analyze.", []⟩
  else
    let total_reviews := df.length
    let all_sentiments := df.map (classify_record analyzer)
    ⟨df, all_sentiments,
      SummaryOutput.distribution "**Sentiment Distribution (VADER):**"
        (categories.map (fun category =>
          (category, label_count all_sentiments category,
            label_percentage all_sentiments category))),
      if progress_bar then
        (List.range total_reviews).map (fun i : ℕ => ((i : ℚ) + 1) / ((total_reviews : ℕ) : ℚ))
      else []⟩

/-! ### Shared lemmas about the embedded functions -/

theorem emoji_foldl_eq (cs : List Char) (s : ℚ) (n : ℕ) :
    cs.foldl (fun acc c =>
      match emojiLookup c with
      | some w => (acc.1 + w, acc.2 + 1)
      | none => acc) (s, n)
    = (s + (cs.filterMap emojiLookup).sum, n + (cs.filterMap emojiLookup).length) := by
  induction cs generalizing s n with
  | nil => simp
  | cons c cs ih =>
    cases h : emojiLookup c
    · simp [List.foldl_cons, h, ih]
    · simp only [List.foldl_cons, h, ih, List.filterMap_cons, List.sum_cons,
        List.length_cons, Prod.mk.injEq]
      refine ⟨by ring, by omega⟩

theorem get_emoji_sentiment_eq (text : String) :
    get_emoji_sentiment text
      = (emojiWeights text).sum / ((max 1 (emojiWeights text).length : ℕ) : ℚ) := by
  show (text.data.foldl _ ((0 : ℚ), (0 : ℕ))).1 / _ = _
  rw [emoji_foldl_eq]
  simp [emojiWeights]

theorem EMOJI_SENTIMENT_weight_bounds :
    ∀ p ∈ EMOJI_SENTIMENT, -1 ≤ p.2 ∧ p.2 ≤ 1 := by
  simp [EMOJI_SENTIMENT]; norm_num

theorem emojiLookup_bounds (c : Char) (w : ℚ) (h : emojiLookup c = some w) :
    -1 ≤ w ∧ w ≤ 1 := by
  unfold emojiLookup at h
  rcases Option.map_eq_some'.mp h with ⟨p, hp, hw⟩
  have hmem := List.mem_of_find?_eq_some hp
  have := EMOJI_SENTIMENT_weight_bounds p hmem
  rw [← hw]
  exact this

theorem emojiWeights_bounds (text : String) :
    ∀ w ∈ emojiWeights text, -1 ≤ w ∧ w ≤ 1 := by
  intro w hw
  rcases List.mem_filterMap.mp hw with ⟨c, _, hc⟩
  exact emojiLookup_bounds c w hc

theorem abs_sum_le_length (l : List ℚ) (h : ∀ w ∈ l, -1 ≤ w ∧ w ≤ 1) :
    |l.sum| ≤ (l.length : ℚ) := by
  induction l with
  | nil => simp
  | cons x l ih =>
    have hx := h x (List.mem_cons_self x l)
    have hl := ih (fun w hw => h w (List.mem_cons_of_mem x hw))
    have hxa : |x| ≤ 1 := abs_le.mpr hx
    calc |(x :: l).sum| = |x + l.sum| := by simp
      _ ≤ |x| + |l.sum| := abs_add x l.sum
      _ ≤ 1 + (l.length : ℚ) := add_le_add hxa hl
      _ = ((x :: l).length : ℚ) := by push_cast [List.length_cons]; ring

theorem get_emoji_sentiment_bounds (text : String) :
    -1 ≤ get_emoji_sentiment text ∧ get_emoji_sentiment text ≤ 1 := by
  rw [get_emoji_sentiment_eq]
  set l := emojiWeights text with hl
  have habs : |l.sum| ≤ (l.length : ℚ) := abs_sum_le_length l (emojiWeights_bounds text)
  have hden : (0 : ℚ) < ((max 1 l.length : ℕ) : ℚ) := by
    have : (1 : ℕ) ≤ max 1 l.length := le_max_left 1 l.length
    exact_mod_cast lt_of_lt_of_le Nat.zero_lt_one this
  have hlen : (l.length : ℚ) ≤ ((max 1 l.length : ℕ) : ℚ) := by
    exact_mod_cast le_max_right 1 l.length
  have hq : |l.sum / ((max 1 l.length : ℕ) : ℚ)| ≤ 1 := by
    rw [abs_div, abs_of_pos hden]
    rw [div_le_one hden]
    exact le_trans habs hlen
  exact abs_le.mp hq

theorem threshold_label_cases (s : ℚ) :
    threshold_label s = "Positive" ∨ threshold_label s = "Negative"
      ∨ threshold_label s = "Neutral" := by
  unfold threshold_label
  split_ifs <;> simp

theorem classify_record_label (analyzer : String → ℚ) (cell : Cell) :
    classify_record analyzer cell = "Positive" ∨ classify_record analyzer cell = "Negative"
      ∨ classify_record analyzer cell = "Neutral"
      ∨ classify_record analyzer cell = "Inconclusive" := by
  simp only [classify_record]
  split_ifs with h
  · simp
  · rcases threshold_label_cases
      (adjusted_score (analyzer (py_strip (py_str cell))) (py_strip (py_str cell))) with
      h1 | h1 | h1 <;> simp [h1]

theorem counts_sum (ss : List String)
    (h : ∀ s ∈ ss, s = "Positive" ∨ s = "Negative" ∨ s = "Neutral" ∨ s = "Inconclusive") :
    (categories.map (fun cat => label_count ss cat)).sum = ss.length := by
  induction ss with
  | nil => simp [categories, label_count]
  | cons s ss ih =>
    have hs := h s (List.mem_cons_self s ss)
    have ih' := ih (fun x hx => h x (List.mem_cons_of_mem s hx))
    simp only [categories, List.map_cons, List.map_nil, List.sum_cons, List.sum_nil,
      label_count, List.countP_cons, List.length_cons] at ih' ⊢
    rcases hs with h1 | h1 | h1 | h1 <;> subst h1 <;> simp <;> omega

theorem classify_record_ne_spam (analyzer : String → ℚ) (cell : Cell) :
    classify_record analyzer cell ≠ "Spam" := by
  rcases classify_record_label analyzer cell with h | h | h | h <;> simp [h]

theorem threshold_label_ne_inconclusive (s : ℚ) :
    threshold_label s ≠ "Inconclusive" := by
  rcases threshold_label_cases s with h | h | h <;> simp [h]

/-! ### Claim theorems -/

/-- C1: for every review cell whose text is non-empty after stripping, the
label is the threshold mapping of the adjusted score, and the threshold
mapping sends every score `≥ 0.10` (boundary included) to Positive, every
score `≤ -0.10` (boundary included) to Negative, and every score strictly
between to Neutral. -/
theorem C1_boundary_rules (analyzer : String → ℚ) (cell : Cell)
    (h : py_strip (py_str cell) ≠ "") :
    classify_record analyzer cell
      = threshold_label
          (adjusted_score (analyzer (py_strip (py_str cell))) (py_strip (py_str cell)))
    ∧ ∀ s : ℚ,
        (0.1 ≤ s → threshold_label s = "Positive")
      ∧ (s ≤ -0.1 → threshold_label s = "Negative")
      ∧ (-0.1 < s → s < 0.1 → threshold_label s = "Neutral") := by
  constructor
  · simp only [classify_record]
    rw [if_neg h]
  · intro s
    refine ⟨fun h1 => ?_, fun h1 => ?_, fun h1 h2 => ?_⟩
    · simp only [threshold_label]
      rw [if_pos (by exact h1)]
    · simp only [threshold_label]
      rw [if_neg (by intro hc; nlinarith), if_pos h1]
    · simp only [threshold_label]
      rw [if_neg (by intro hc; nlinarith), if_neg (by intro hc; nlinarith)]

/-- C1 witness: a concrete non-empty review. -/
theorem C1_boundary_rules_witness :
    classify_record (fun _ => 0.5) (Cell.str "nice")
      = threshold_label
          (adjusted_score ((fun _ : String => (0.5 : ℚ)) (py_strip (py_str (Cell.str "nice"))))
            (py_strip (py_str (Cell.str "nice")))) :=
  (C1_boundary_rules (fun _ => 0.5) (Cell.str "nice") (by decide)).1

/-- C2: the adjusted score is the compound score plus 0.3 times the emoji
sentiment, multiplied by 0.8 exactly when the misspelling score of that same
text exceeds 0.2; multiplying by 0.8 shrinks the magnitude and preserves the
sign; and each record's label in a batch depends only on that record (the
sentiment column is a pointwise map over the rows). -/
theorem C2_adjustment_formula (compound : ℚ) (text : String) :
    adjusted_score compound text
      = (if get_misspelling_score text > 0.2
          then (compound + get_emoji_sentiment text * 0.3) * 0.8
          else compound + get_emoji_sentiment text * 0.3)
    ∧ (∀ x : ℚ, |x * 0.8| ≤ |x| ∧ (0 < x → 0 < x * 0.8) ∧ (x < 0 → x * 0.8 < 0))
    ∧ (∀ (analyzer : String → ℚ) (pb : Bool) (df : List Cell),
        (analyze_sentiments_with_vader analyzer pb df).sentiments
          = df.map (classify_record analyzer)) := by
  refine ⟨rfl, fun x => ⟨?_, fun hx => by nlinarith, fun hx => by nlinarith⟩, ?_⟩
  · rw [abs_mul, abs_of_pos (by norm_num : (0 : ℚ) < 0.8)]
    nlinarith [abs_nonneg x]
  · intro analyzer pb df
    cases df with
    | nil => simp [analyze_sentiments_with_vader]
    | cons c cs => simp [analyze_sentiments_with_vader]

/-- C2 witness: the adjustment formula at a concrete penalised text. -/
theorem C2_adjustment_formula_witness :
    adjusted_score 0.5 "gr8 app luv it"
      = (if get_misspelling_score "gr8 app luv it" > 0.2
          then ((0.5 : ℚ) + get_emoji_sentiment "gr8 app luv it" * 0.3) * 0.8
          else (0.5 : ℚ) + get_emoji_sentiment "gr8 app luv it" * 0.3) :=
  (C2_adjustment_formula 0.5 "gr8 app luv it").1

/-- C3: a review cell whose coerced text strips to the empty string is always
labelled Inconclusive, for every possible lexicon scorer (hence independently
of any lexicon, emoji or misspelling signal). -/
theorem C3_empty_inconclusive (analyzer : String → ℚ) (cell : Cell)
    (h : py_strip (py_str cell) = "") :
    classify_record analyzer cell = "Inconclusive" := by
  simp only [classify_record]
  rw [if_pos h]

/-- C3 witness: a whitespace-only review under a non-trivial scorer. -/
theorem C3_empty_inconclusive_witness :
    classify_record (fun _ => 1) (Cell.str "   ") = "Inconclusive" :=
  C3_empty_inconclusive (fun _ => 1) (Cell.str "   ") (by decide)

/-- C4: the emoji sentiment is the sum of the matched table weights divided by
`max 1 (number of matches)`; a text with no recognized emoji scores exactly 0;
and the value always lies in `[-1, 1]` (the division is total, never a
fault). -/
theorem C4_emoji_mean (text : String) :
    get_emoji_sentiment text
      = (emojiWeights text).sum / ((max 1 (emojiWeights text).length : ℕ) : ℚ)
    ∧ (emojiWeights text = [] → get_emoji_sentiment text = 0)
    ∧ -1 ≤ get_emoji_sentiment text ∧ get_emoji_sentiment text ≤ 1 := by
  refine ⟨get_emoji_sentiment_eq text, fun h => ?_, get_emoji_sentiment_bounds text⟩
  rw [get_emoji_sentiment_eq, h]
  simp

/-- C4 witness: a text with no recognized emoji scores exactly 0. -/
theorem C4_emoji_mean_witness : get_emoji_sentiment "hello world" = 0 :=
  (C4_emoji_mean "hello world").2.1 rfl

/-- C5: the misspelling score tokenizes the lower-cased text into
alphanumeric/underscore runs, counts each word at most once (a word counts
iff it is an alternative of some pattern), and returns misspelled count over
word count — a value in `[0, 1]`, equal to 0 when there are no words. -/
theorem C5_misspelling_ratio (text : String) :
    (findall_words (py_lower text) = [] → get_misspelling_score text = 0)
    ∧ (findall_words (py_lower text) ≠ [] →
        get_misspelling_score text
          = (((findall_words (py_lower text)).countP isMisspelled : ℕ) : ℚ)
              / (((findall_words (py_lower text)).length : ℕ) : ℚ))
    ∧ (findall_words (py_lower text)).countP isMisspelled
        ≤ (findall_words (py_lower text)).length
    ∧ 0 ≤ get_misspelling_score text ∧ get_misspelling_score text ≤ 1 := by
  have hcount : (findall_words (py_lower text)).countP isMisspelled
      ≤ (findall_words (py_lower text)).length := List.countP_le_length _
  by_cases h : findall_words (py_lower text) = []
  · refine ⟨fun _ => ?_, fun hne => absurd h hne, hcount, ?_, ?_⟩ <;>
      simp [get_misspelling_score, h]
  · have hne : ¬(findall_words (py_lower text)).isEmpty := by
      simpa [List.isEmpty_iff] using h
    have heq : get_misspelling_score text
        = (((findall_words (py_lower text)).countP isMisspelled : ℕ) : ℚ)
            / (((findall_words (py_lower text)).length : ℕ) : ℚ) := by
      simp only [get_misspelling_score]
      rw [if_neg (by simpa using hne)]
    have hlen : 0 < (findall_words (py_lower text)).length := by
      cases hw : findall_words (py_lower text) with
      | nil => exact absurd hw h
      | cons a l => simp [hw]
    have hlenq : (0 : ℚ) < (((findall_words (py_lower text)).length : ℕ) : ℚ) := by
      exact_mod_cast hlen
    refine ⟨fun hc => absurd hc h, fun _ => heq, hcount, ?_, ?_⟩
    · rw [heq]
      positivity
    · rw [heq, div_le_one hlenq]
      exact_mod_cast hcount

/-- C5 witness: `"plz fix"` has two words, one misspelled. -/
theorem C5_misspelling_ratio_witness :
    get_misspelling_score "plz fix"
      = (((findall_words (py_lower "plz fix")).countP isMisspelled : ℕ) : ℚ)
          / (((findall_words (py_lower "plz fix")).length : ℕ) : ℚ) :=
  (C5_misspelling_ratio "plz fix").2.1 (by decide)

theorem analyze_nonempty (analyzer : String → ℚ) (pb : Bool) (df : List Cell)
    (h : df ≠ []) :
    analyze_sentiments_with_vader analyzer pb df
      = ⟨df, df.map (classify_record analyzer),
          SummaryOutput.distribution "**Sentiment Distribution (VADER):**"
            (categories.map (fun category =>
              (category, label_count (df.map (classify_record analyzer)) category,
                label_percentage (df.map (classify_record analyzer)) category))),
          if pb then
            (List.range df.length).map (fun i : ℕ => ((i : ℚ) + 1) / ((df.length : ℕ) : ℚ))
          else []⟩ := by
  have hne : df.isEmpty = false := by
    cases df with
    | nil => exact absurd rfl h
    | cons a l => rfl
  simp only [analyze_sentiments_with_vader, hne]
  simp

/-- C6: in a non-empty batch every record gets exactly one label (the
sentiment column has one entry per row), the five per-category counts sum to
the batch size, the Spam count is 0, each percentage is
`count / total * 100` (and the percentage of an empty batch is 0), and the
summary reports exactly those counts and percentages. -/
theorem C6_batch_invariants (analyzer : String → ℚ) (pb : Bool) (df : List Cell)
    (h : df ≠ []) :
    (analyze_sentiments_with_vader analyzer pb df).sentiments.length = df.length
    ∧ (categories.map (fun cat =>
          label_count (analyze_sentiments_with_vader analyzer pb df).sentiments cat)).sum
        = df.length
    ∧ label_count (analyze_sentiments_with_vader analyzer pb df).sentiments "Spam" = 0
    ∧ (∀ cat, label_percentage (analyze_sentiments_with_vader analyzer pb df).sentiments cat
        = ((label_count (analyze_sentiments_with_vader analyzer pb df).sentiments cat : ℕ) : ℚ)
            / ((df.length : ℕ) : ℚ) * 100)
    ∧ (∀ cat, label_percentage [] cat = 0)
    ∧ (analyze_sentiments_with_vader analyzer pb df).summary
        = SummaryOutput.distribution "**Sentiment Distribution (VADER):**"
            (categories.map (fun cat =>
              (cat,
                label_count (analyze_sentiments_with_vader analyzer pb df).sentiments cat,
                label_percentage (analyze_sentiments_with_vader analyzer pb df).sentiments cat))) := by
  have hs : (analyze_sentiments_with_vader analyzer pb df).sentiments
      = df.map (classify_record analyzer) := by
    rw [analyze_nonempty analyzer pb df h]
  have hlen : (df.map (classify_record analyzer)).length = df.length := by simp
  have hwl : ∀ s ∈ df.map (classify_record analyzer),
      s = "Positive" ∨ s = "Negative" ∨ s = "Neutral" ∨ s = "Inconclusive" := by
    intro s hsmem
    rcases List.mem_map.mp hsmem with ⟨cell, _, rfl⟩
    exact classify_record_label analyzer cell
  have hpos : 0 < df.length := by
    cases df with
    | nil => exact absurd rfl h
    | cons a l => simp
  refine ⟨by rw [hs]; exact hlen, ?_, ?_, ?_, ?_, ?_⟩
  · rw [hs, counts_sum _ hwl, hlen]
  · rw [hs]
    refine List.countP_eq_zero.mpr ?_
    intro s hsmem
    rcases List.mem_map.mp hsmem with ⟨cell, _, rfl⟩
    simpa using classify_record_ne_spam analyzer cell
  · intro cat
    rw [hs]
    simp only [label_percentage, hlen]
    rw [if_pos hpos]
  · intro cat
    simp [label_percentage]
  · rw [analyze_nonempty analyzer pb df h]

/-- C6 witness: a singleton batch. -/
theorem C6_batch_invariants_witness :
    label_count (analyze_sentiments_with_vader (fun _ => 0) false [Cell.str "ok"]).sentiments
      "Spam" = 0 :=
  (C6_batch_invariants (fun _ => 0) false [Cell.str "ok"] (by decide)).2.2.1

/-- C7: an empty batch is returned unchanged with the literal message
"No reviews to analyze." — no labels, no summary rows, no progress calls, and
no error (the function is total). -/
theorem C7_empty_batch (analyzer : String → ℚ) (pb : Bool) :
    analyze_sentiments_with_vader analyzer pb []
      = ⟨[], [], SummaryOutput.message "No reviews to analyze.", []⟩ := rfl

/-- C8: with a progress sink present, a non-empty batch produces exactly one
progress call per record, the fractions `(i + 1) / total` are monotonically
non-decreasing, and the last one is exactly 1. -/
theorem C8_progress_calls (analyzer : String → ℚ) (df : List Cell) (h : df ≠ []) :
    (analyze_sentiments_with_vader analyzer true df).progress_calls
        = (List.range df.length).map (fun i : ℕ => ((i : ℚ) + 1) / ((df.length : ℕ) : ℚ))
    ∧ (analyze_sentiments_with_vader analyzer true df).progress_calls.length = df.length
    ∧ List.Pairwise (· ≤ ·) (analyze_sentiments_with_vader analyzer true df).progress_calls
    ∧ (analyze_sentiments_with_vader analyzer true df).progress_calls.getLast? = some 1 := by
  have hcalls : (analyze_sentiments_with_vader analyzer true df).progress_calls
      = (List.range df.length).map (fun i : ℕ => ((i : ℚ) + 1) / ((df.length : ℕ) : ℚ)) := by
    rw [analyze_nonempty analyzer true df h]
    simp
  have hlen : df.length ≠ 0 := by
    cases df with
    | nil => exact absurd rfl h
    | cons a l => simp
  have hq : (0 : ℚ) < ((df.length : ℕ) : ℚ) := by
    exact_mod_cast Nat.pos_of_ne_zero hlen
  refine ⟨hcalls, by rw [hcalls]; simp, ?_, ?_⟩
  · rw [hcalls, List.pairwise_map]
    refine (List.pairwise_lt_range df.length).imp ?_
    intro a b hab
    gcongr
  · obtain ⟨m, hm⟩ : ∃ m, df.length = m + 1 := ⟨df.length - 1, by omega⟩
    rw [hcalls, hm, List.range_succ, List.map_append]
    simp only [List.map_cons, List.map_nil]
    rw [List.getLast?_concat]
    congr 1
    push_cast
    rw [div_self]
    positivity

/-- C8 witness: a singleton batch with the progress bar present. -/
theorem C8_progress_calls_witness :
    (analyze_sentiments_with_vader (fun _ => 0) true [Cell.nan]).progress_calls.getLast?
      = some 1 :=
  (C8_progress_calls (fun _ => 0) [Cell.nan] (by decide)).2.2.2

/-- C9: for the text consisting of the single emoji 😊 (table weight 0.8) and
a lexicon compound score of 0, the adjusted score is exactly
`0 + 0.8 * 0.3 = 0.24` (no misspelling penalty fires) and the label is
Positive. -/
theorem C9_smiley_emoji (analyzer : String → ℚ) (h : analyzer "😊" = 0) :
    adjusted_score (analyzer "😊") "😊" = 0.24
    ∧ classify_record analyzer (Cell.str "😊") = "Positive" := by
  have e2 : get_emoji_sentiment "😊" = 0.8 := by
    rw [get_emoji_sentiment_eq]
    norm_num [show emojiWeights "😊" = [0.8] from rfl]
  have e3 : get_misspelling_score "😊" = 0 := rfl
  have e4 : adjusted_score (analyzer "😊") "😊" = 0.24 := by
    rw [h]
    simp only [adjusted_score, e2, e3]
    norm_num
  refine ⟨e4, ?_⟩
  have hsstrip : py_strip (py_str (Cell.str "😊")) = "😊" := rfl
  simp only [classify_record, hsstrip]
  rw [if_neg (by decide), e4]
  simp only [threshold_label]
  rw [if_pos (by norm_num : (0.24 : ℚ) ≥ 0.1)]

/-- C9 witness: the zero scorer on the 😊 review. -/
theorem C9_smiley_emoji_witness :
    classify_record (fun _ => 0) (Cell.str "😊") = "Positive" :=
  (C9_smiley_emoji (fun _ => 0) rfl).2

/-- C10: a non-string review cell (e.g. NaN) is coerced by `str(...)` to the
non-empty text "nan" and is scored on it — it is never labelled Inconclusive;
in general a record is Inconclusive exactly when its coerced string form
strips to the empty string. -/
theorem C10_nan_coercion (analyzer : String → ℚ) :
    py_str Cell.nan = "nan"
    ∧ classify_record analyzer Cell.nan
        = threshold_label (adjusted_score (analyzer "nan") "nan")
    ∧ classify_record analyzer Cell.nan ≠ "Inconclusive"
    ∧ (∀ cell : Cell, classify_record analyzer cell = "Inconclusive"
        ↔ py_strip (py_str cell) = "") := by
  have hstripnan : py_strip (py_str Cell.nan) = "nan" := rfl
  have hnan : classify_record analyzer Cell.nan
      = threshold_label (adjusted_score (analyzer "nan") "nan") := by
    simp only [classify_record, hstripnan]
    rw [if_neg (by decide)]
  refine ⟨rfl, hnan, ?_, ?_⟩
  · rw [hnan]
    exact threshold_label_ne_inconclusive _
  · intro cell
    constructor
    · intro hc
      by_contra hne
      have hmap : classify_record analyzer cell
          = threshold_label (adjusted_score (analyzer (py_strip (py_str cell)))
              (py_strip (py_str cell))) := by
        simp only [classify_record]
        rw [if_neg hne]
      rw [hmap] at hc
      exact threshold_label_ne_inconclusive _ hc
    · intro hc
      simp only [classify_record]
      rw [if_pos hc]

/-- C10 witness: under the zero scorer, the NaN cell is not Inconclusive. -/
theorem C10_nan_coercion_witness :
    classify_record (fun _ => 0) Cell.nan ≠ "Inconclusive" :=
  (C10_nan_coercion (fun _ => 0)).2.2.1
